import Mathlib

/-!
Shallow embedding of the rust-mongodb-crud persistence layer
(src/rust-mongodb-crud/src: db.rs, errors.rs, schema.rs, model.rs,
response.rs) for checking the specification's claims.

Modelling conventions:
* BSON documents are ordered association lists from field names to values.
* The collection is a list of (ObjectId, Document) pairs; the ObjectId is
  the store-assigned `_id`.
* Wall-clock time (`Utc::now()`) is a `Nat` passed in explicitly.
* Driver-level outcomes that depend on the environment (an injected insert
  failure, a failing `create_index` call) are explicit parameters.
* A Rust panic (`expect` / `unwrap` on a failed conversion) is modelled as
  `none` in an `Option`-wrapped result, distinct from every `Except.error`.
* Each gateway operation additionally returns the list of store operations
  it issued, in order, so that claims about "no database operation was
  performed" are statable.
-/

deriving instance DecidableEq for Except

set_option synthInstance.maxSize 1000

namespace RustMongoCrud

/-! ### Identifier codec (mongodb::bson::oid::ObjectId) -/

/-- A MongoDB ObjectId, modelled by its 12-byte numeric value. -/
structure ObjectId where
  val : Nat
deriving DecidableEq, Repr

/-- Is `c` an ASCII hex digit (0-9, a-f, A-F)?  `ObjectId::from_str`
accepts exactly 24 such characters. -/
def isHexCharB (c : Char) : Bool :=
  decide ((48 ≤ c.toNat ∧ c.toNat ≤ 57) ∨ (97 ≤ c.toNat ∧ c.toNat ≤ 102) ∨
    (65 ≤ c.toNat ∧ c.toNat ≤ 70))

/-- Numeric value of a hex digit. -/
def hexVal (c : Char) : Nat :=
  if c.toNat ≤ 57 then c.toNat - 48
  else if 97 ≤ c.toNat then c.toNat - 87
  else c.toNat - 55

/-- `ObjectId::from_str`: succeeds exactly on 24-character hex strings. -/
def parseObjectId (s : String) : Option ObjectId :=
  if s.length = 24 ∧ s.data.all isHexCharB = true then
    some ⟨s.data.foldl (fun acc c => 16 * acc + hexVal c) 0⟩
  else none

/-- Hex digit character for a value below 16 (lowercase, as `to_hex`). -/
def hexDigitChar (n : Nat) : Char :=
  if n < 10 then Char.ofNat (48 + n) else Char.ofNat (87 + n)

/-- Big-endian hex rendering of `n` using exactly `k` digits. -/
def toHexList : Nat → Nat → List Char
  | 0, _ => []
  | k + 1, n => toHexList k (n / 16) ++ [hexDigitChar (n % 16)]

/-- `ObjectId::to_hex`: the canonical 24-character hex form. -/
def ObjectId.toHex (o : ObjectId) : String :=
  String.mk (toHexList 24 o.val)

/-! ### BSON documents -/

/-- BSON values appearing in the note documents. -/
inductive BVal where
  | str (s : String)
  | bool (b : Bool)
  | time (t : Nat)
  | oid (o : ObjectId)
deriving DecidableEq, Repr

/-- A BSON document: an ordered association list of fields. -/
abbrev Document := List (String × BVal)

/-- First value stored under key `k`. -/
def docGet : Document → String → Option BVal
  | [], _ => none
  | p :: rest, k => if p.1 = k then some p.2 else docGet rest k

/-- `bson::Document::insert`: replace the value of an existing key in
place, else append the new field (preserving field order). -/
def insertPair : Document → String × BVal → Document
  | [], p => [p]
  | q :: rest, p => if q.1 = p.1 then p :: rest else q :: insertPair rest p

/-- `bson::Document::extend` and the `$set` merge semantics: insert each
field of `u` into `d` in order. -/
def extendDoc (d : Document) (u : Document) : Document :=
  u.foldl insertPair d

/-- String-typed field access. -/
def getStr (d : Document) (k : String) : Option String :=
  match docGet d k with
  | some (BVal.str s) => some s
  | _ => none

/-- Bool-typed field access. -/
def getBoolV (d : Document) (k : String) : Option Bool :=
  match docGet d k with
  | some (BVal.bool b) => some b
  | _ => none

/-- Datetime-typed field access. -/
def getTimeV (d : Document) (k : String) : Option Nat :=
  match docGet d k with
  | some (BVal.time t) => some t
  | _ => none

/-! ### Request schemas (schema.rs) -/

/-- `CreateNoteSchema`: title and content required, category and
published optional. -/
structure CreateNoteSchema where
  title : String
  content : String
  category : Option String
  published : Option Bool
deriving DecidableEq, Repr

/-- `UpdateNoteSchema`: every field optional. -/
structure UpdateNoteSchema where
  title : Option String
  content : Option String
  category : Option String
  published : Option Bool
deriving DecidableEq, Repr

/-- serde serialization of `CreateNoteSchema`: title and content always
present; category and published skipped when `None`
(`skip_serializing_if = "Option::is_none"`). -/
def serializeCreate (body : CreateNoteSchema) : Document :=
  [("title", BVal.str body.title), ("content", BVal.str body.content)] ++
  (match body.category with
   | some c => [("category", BVal.str c)]
   | none => []) ++
  (match body.published with
   | some b => [("published", BVal.bool b)]
   | none => [])

/-- serde serialization of `UpdateNoteSchema`: every `None` field is
skipped entirely (`skip_serializing_if = "Option::is_none"`). -/
def serializeUpdate (body : UpdateNoteSchema) : Document :=
  (match body.title with
   | some t => [("title", BVal.str t)]
   | none => []) ++
  (match body.content with
   | some c => [("content", BVal.str c)]
   | none => []) ++
  (match body.category with
   | some c => [("category", BVal.str c)]
   | none => []) ++
  (match body.published with
   | some b => [("published", BVal.bool b)]
   | none => [])

/-- The field names present in an update request's serialized form. -/
def requestKeys (body : UpdateNoteSchema) : List String :=
  (serializeUpdate body).map Prod.fst

/-! ### Stored model (model.rs) -/

/-- `NoteModel`: the typed view of a stored note document. -/
structure NoteModel where
  id : ObjectId
  title : String
  content : String
  category : Option String
  published : Option Bool
  createdAt : Nat
  updatedAt : Nat
deriving DecidableEq, Repr

/-- serde deserialization of a stored document into `NoteModel`:
title, content, createdAt and updatedAt are required; category and
published are optional. -/
def deserNote (id : ObjectId) (d : Document) : Option NoteModel :=
  match getStr d "title", getStr d "content",
        getTimeV d "createdAt", getTimeV d "updatedAt" with
  | some t, some c, some ca, some ua =>
      some { id := id, title := t, content := c,
             category := getStr d "category",
             published := getBoolV d "published",
             createdAt := ca, updatedAt := ua }
  | _, _, _, _ => none

/-! ### Response shapes (response.rs) -/

/-- `NoteResponse`. -/
structure NoteResponse where
  id : String
  title : String
  content : String
  category : String
  published : Bool
  createdAt : Nat
  updatedAt : Nat
deriving DecidableEq, Repr

/-- `NoteData`. -/
structure NoteData where
  note : NoteResponse
deriving DecidableEq, Repr

/-- `SingleNoteResponse`. -/
structure SingleNoteResponse where
  status : String
  data : NoteData
deriving DecidableEq, Repr

/-- `NoteListResponse`. -/
structure NoteListResponse where
  status : String
  results : Nat
  notes : List NoteResponse
deriving DecidableEq, Repr

/-! ### Errors (errors.rs) -/

/-- A driver-level `mongodb::error::Error`, modelled by whether it in
fact arose from a unique-index (duplicate key) violation — the store's
structured constraint-violation signal — together with its display
message (`e.to_string()`). -/
structure MongoError where
  isDupKeyViolation : Bool
  message : String
deriving DecidableEq, Repr

/-- The application error taxonomy of errors.rs. -/
inductive Error where
  | MongoError (e : MongoError)
  | MongoQueryError (e : MongoError)
  | MongoDuplicateError (e : MongoError)
  | MongoSerializeBsonError (message : String)
  | MongoDataError (message : String)
  | InvalidIDError (id : String)
deriving DecidableEq, Repr

/-! ### The store -/

/-- The note collection: stored documents keyed by their `_id`. -/
abbrev Store := List (ObjectId × Document)

/-- Store operations a gateway call can issue, in order. -/
inductive StoreOp where
  | createIndex
  | insertOne (d : Document)
  | findOne (oid : ObjectId)
  | findOneAndUpdate (oid : ObjectId) (setDoc : Document)
  | deleteOne (oid : ObjectId)
deriving DecidableEq, Repr

/-- `find_one` by `_id`: the first document with the given id. -/
def findDoc : Store → ObjectId → Option Document
  | [], _ => none
  | p :: rest, oid => if p.1 = oid then some p.2 else findDoc rest oid

/-- Does some stored document already carry this title?  This is what
the unique index on `title` checks on insert. -/
def titleTaken : Store → String → Bool
  | [], _ => false
  | p :: rest, t =>
      decide (docGet p.2 "title" = some (BVal.str t)) || titleTaken rest t

/-- Replace the (first) document with the given id. -/
def updateAt : Store → ObjectId → Document → Store
  | [], _, _ => []
  | p :: rest, oid, d =>
      if p.1 = oid then (p.1, d) :: rest else p :: updateAt rest oid d

/-- `delete_one`: remove the first document with the given id. -/
def removeFirst : Store → ObjectId → Store
  | [], _ => []
  | p :: rest, oid => if p.1 = oid then rest else p :: removeFirst rest oid

/-! ### Persistence gateway (db.rs) -/

/-- The substring `create_note` looks for in a driver error's display
message to decide that the insert hit the duplicate-key constraint. -/
def dupKeyMarker : String := "E11000 duplicate key error collection"

/-- The display message of a genuine duplicate-key violation reported by
the server. -/
def dupKeyErrorMessage : String :=
  "E11000 duplicate key error collection: notes index: title dup key"

/-- Does `sub` occur as a substring of `l`? -/
def listContainsAux (sub : List Char) : List Char → Bool
  | [] => sub.isPrefixOf ([] : List Char)
  | c :: t => sub.isPrefixOf (c :: t) || listContainsAux sub t

/-- Rust `str::contains` on string slices. -/
def strContains (s sub : String) : Bool :=
  listContainsAux sub.data s.data

/-- The error mapping in `create_note`'s `insert_one` call: an insert
failure whose display message contains `dupKeyMarker` becomes
`MongoDuplicateError`; every other one becomes `MongoQueryError`. -/
def classifyInsertError (e : MongoError) : Error :=
  if strContains e.message dupKeyMarker then Error.MongoDuplicateError e
  else Error.MongoQueryError e

/-- `insert_one` against the collection: an injected environment failure
takes precedence; otherwise the unique index on `title` rejects a
colliding title with a duplicate-key error, and the document is appended
with the store-assigned fresh id. -/
def insertOne (insertErr : Option MongoError) (st : Store) (id : ObjectId)
    (d : Document) : Except MongoError Store :=
  match insertErr with
  | some e => Except.error e
  | none =>
    match docGet d "title" with
    | some (BVal.str t) =>
        if titleTaken st t then
          Except.error { isDupKeyViolation := true, message := dupKeyErrorMessage }
        else Except.ok (st ++ [(id, d)])
    | _ => Except.ok (st ++ [(id, d)])

/-- `find_one` against the typed `note_collection`: a present document
that fails to deserialize surfaces as a driver error. -/
def findOneNote (st : Store) (oid : ObjectId) :
    Except MongoError (Option NoteModel) :=
  match findDoc st oid with
  | none => Except.ok none
  | some d =>
    match deserNote oid d with
    | some m => Except.ok (some m)
    | none => Except.error { isDupKeyViolation := false, message := "invalid document" }

/-- `doc_to_note`'s output record: category defaulted to the empty
string and published defaulted to false when absent. -/
def noteResponseOf (note : NoteModel) : NoteResponse :=
  { id := note.id.toHex, title := note.title, content := note.content,
    category := note.category.getD "", published := note.published.getD false,
    createdAt := note.createdAt, updatedAt := note.updatedAt }

/-- `DB::doc_to_note`: always succeeds on a well-typed `NoteModel`. -/
def docToNote (note : NoteModel) : Except Error NoteResponse :=
  Except.ok (noteResponseOf note)

/-- The document `create_note` builds: `doc_with_dates` (createdAt,
updatedAt, published and category materialized with their defaults)
extended with the serialized request body. -/
def createMerged (now : Nat) (body : CreateNoteSchema) : Document :=
  extendDoc
    [("createdAt", BVal.time now), ("updatedAt", BVal.time now),
     ("published", BVal.bool (body.published.getD false)),
     ("category", BVal.str (body.category.getD ""))]
    (serializeCreate body)

/-- `DB::create_note`.  `indexFails` injects a failing `create_index`
call (the source reacts with `expect`, i.e. a panic, modelled as the
`none` result); `insertErr` injects a driver-level insert failure;
`freshId` is the store-assigned `_id` of the inserted document. -/
def createNote (indexFails : Bool) (insertErr : Option MongoError)
    (now : Nat) (freshId : ObjectId) (st : Store) (body : CreateNoteSchema) :
    Option (Except Error (Option SingleNoteResponse)) × Store × List StoreOp :=
  if indexFails then (none, st, [StoreOp.createIndex])
  else
    let docWithDates := createMerged now body
    match insertOne insertErr st freshId docWithDates with
    | Except.error e =>
        (some (Except.error (classifyInsertError e)), st,
         [StoreOp.createIndex, StoreOp.insertOne docWithDates])
    | Except.ok st' =>
      match findOneNote st' freshId with
      | Except.error e =>
          (some (Except.error (Error.MongoQueryError e)), st',
           [StoreOp.createIndex, StoreOp.insertOne docWithDates, StoreOp.findOne freshId])
      | Except.ok none =>
          (some (Except.ok none), st',
           [StoreOp.createIndex, StoreOp.insertOne docWithDates, StoreOp.findOne freshId])
      | Except.ok (some m) =>
          (some (Except.ok (some { status := "success", data := { note := noteResponseOf m } })),
           st',
           [StoreOp.createIndex, StoreOp.insertOne docWithDates, StoreOp.findOne freshId])

/-- `DB::get_note`. -/
def getNote (st : Store) (id : String) :
    Except Error (Option SingleNoteResponse) × Store × List StoreOp :=
  match parseObjectId id with
  | none => (Except.error (Error.InvalidIDError id), st, [])
  | some oid =>
    match findOneNote st oid with
    | Except.error e => (Except.error (Error.MongoQueryError e), st, [StoreOp.findOne oid])
    | Except.ok none => (Except.ok none, st, [StoreOp.findOne oid])
    | Except.ok (some m) =>
        (Except.ok (some { status := "success", data := { note := noteResponseOf m } }),
         st, [StoreOp.findOne oid])

/-- `DB::edit_note`: parse the id, serialize the body, and issue an
atomic find-and-update applying `$set` with the serialized body,
returning the post-update document. -/
def editNote (st : Store) (id : String) (body : UpdateNoteSchema) :
    Except Error (Option SingleNoteResponse) × Store × List StoreOp :=
  match parseObjectId id with
  | none => (Except.error (Error.InvalidIDError id), st, [])
  | some oid =>
    let document := serializeUpdate body
    match findDoc st oid with
    | none => (Except.ok none, st, [StoreOp.findOneAndUpdate oid document])
    | some d =>
      let d2 := extendDoc d document
      let st' := updateAt st oid d2
      match deserNote oid d2 with
      | none =>
          (Except.error (Error.MongoQueryError
            { isDupKeyViolation := false, message := "invalid document" }),
           st', [StoreOp.findOneAndUpdate oid document])
      | some m =>
          (Except.ok (some { status := "success", data := { note := noteResponseOf m } }),
           st', [StoreOp.findOneAndUpdate oid document])

/-- `DB::delete_note`. -/
def deleteNote (st : Store) (id : String) :
    Except Error (Option Unit) × Store × List StoreOp :=
  match parseObjectId id with
  | none => (Except.error (Error.InvalidIDError id), st, [])
  | some oid =>
    let deletedCount : Nat := if (findDoc st oid).isSome then 1 else 0
    let st' := removeFirst st oid
    if deletedCount = 0 then (Except.ok none, st', [StoreOp.deleteOne oid])
    else (Except.ok (some ()), st', [StoreOp.deleteOne oid])

/-- The skip value `fetch_notes` computes:
`u64::try_from((page - 1) * limit).unwrap()` — `none` models the panic
of `unwrap` when the product is negative. -/
def fetchNotesSkip (limit page : Int) : Option Nat :=
  if 0 ≤ (page - 1) * limit then some ((page - 1) * limit).toNat else none

/-- The cursor loop of `fetch_notes`: `doc.unwrap()` panics (outer
`none`) on a document the driver cannot decode, and each decoded
document is pushed through `doc_to_note` with `?`. -/
def cursorLoop : List (ObjectId × Document) → Option (Except Error (List NoteResponse))
  | [] => some (Except.ok [])
  | p :: rest =>
    match deserNote p.1 p.2 with
    | none => none
    | some m =>
      match docToNote m with
      | Except.error e => some (Except.error e)
      | Except.ok r =>
        match cursorLoop rest with
        | none => none
        | some (Except.error e) => some (Except.error e)
        | some (Except.ok rs) => some (Except.ok (r :: rs))

/-- `DB::fetch_notes`: skip/limit window over the collection, then the
cursor loop, then the list response. -/
def fetchNotes (st : Store) (limit page : Int) :
    Option (Except Error NoteListResponse) :=
  match fetchNotesSkip limit page with
  | none => none
  | some skip =>
    let window := (st.drop skip).take limit.toNat
    match cursorLoop window with
    | none => none
    | some (Except.error e) => some (Except.error e)
    | some (Except.ok rs) =>
        some (Except.ok { status := "success", results := rs.length, notes := rs })

/-- Every stored document deserializes into a `NoteModel`. -/
def allDeser (st : Store) : Bool :=
  st.all (fun p => (deserNote p.1 p.2).isSome)

/-- The responses produced from the documents that deserialize. -/
def notesOf (l : List (ObjectId × Document)) : List NoteResponse :=
  l.filterMap (fun p => (deserNote p.1 p.2).map noteResponseOf)

/-! ### Concrete fixtures used by witnesses and counterexamples -/

/-- A create request omitting category and published. -/
def exBody : CreateNoteSchema := ⟨"t", "c", none, none⟩

/-- The empty update request. -/
def emptyUpdate : UpdateNoteSchema := ⟨none, none, none, none⟩

/-- A well-formed identifier string (hex value 5). -/
def exId : String := "000000000000000000000005"

/-- A stored note document with both timestamps at 10. -/
def exDoc : Document :=
  [("title", BVal.str "a"), ("content", BVal.str "b"),
   ("category", BVal.str ""), ("published", BVal.bool false),
   ("createdAt", BVal.time 10), ("updatedAt", BVal.time 10)]

/-- A one-note store holding `exDoc` under id 5. -/
def exStore : Store := [(⟨5⟩, exDoc)]

/-- A store whose single document already carries the title "t". -/
def exStoreTitleT : Store := [(⟨1⟩, [("title", BVal.str "t")])]

/-- An insert failure that did NOT arise from the uniqueness constraint
but whose display message happens to contain the duplicate-key marker
substring. -/
def spoofError : MongoError :=
  ⟨false, "server log replay: E11000 duplicate key error collection seen in message"⟩

/-- A list call rejected the input with an error value (as the claimed
InvalidPagination rejection would be). -/
def fetchRejectsWithError (r : Option (Except Error NoteListResponse)) : Prop :=
  ∃ e : Error, r = some (Except.error e)

/-- A list call returned a success response. -/
def fetchReturnsResponse (r : Option (Except Error NoteListResponse)) : Prop :=
  ∃ resp : NoteListResponse, r = some (Except.ok resp)

/-- A create call surfaced an error value to the caller. -/
def createReturnsError (r : Option (Except Error (Option SingleNoteResponse))) : Prop :=
  ∃ e : Error, r = some (Except.error e)

/-! ### Document algebra lemmas -/

theorem docGet_insertPair_ne (d : Document) (p : String × BVal) (k : String)
    (h : p.1 ≠ k) : docGet (insertPair d p) k = docGet d k := by
  induction d with
  | nil => simp [insertPair, docGet, h]
  | cons q rest ih =>
    by_cases hq : q.1 = p.1
    · rw [insertPair, if_pos hq, docGet, if_neg h, docGet,
        if_neg (fun hk => h (hq.symm.trans hk))]
    · rw [insertPair, if_neg hq, docGet, docGet]
      by_cases hk : q.1 = k
      · rw [if_pos hk, if_pos hk]
      · rw [if_neg hk, if_neg hk, ih]

theorem docGet_insertPair_self (d : Document) (k : String) (v : BVal) :
    docGet (insertPair d (k, v)) k = some v := by
  induction d with
  | nil => simp [insertPair, docGet]
  | cons q rest ih =>
    by_cases hq : q.1 = k
    · rw [insertPair, if_pos hq, docGet, if_pos rfl]
    · rw [insertPair, if_neg hq, docGet, if_neg hq, ih]

theorem extendDoc_nil (d : Document) : extendDoc d [] = d := rfl

theorem extendDoc_cons (d : Document) (p : String × BVal) (u : Document) :
    extendDoc d (p :: u) = extendDoc (insertPair d p) u := rfl

theorem extendDoc_append (d : Document) (u1 u2 : Document) :
    extendDoc d (u1 ++ u2) = extendDoc (extendDoc d u1) u2 :=
  List.foldl_append _ _ _ _

theorem docGet_extendDoc_not_mem (u : Document) (d : Document) (k : String)
    (h : k ∉ u.map Prod.fst) : docGet (extendDoc d u) k = docGet d k := by
  induction u generalizing d with
  | nil => rfl
  | cons p t ih =>
    simp only [List.map_cons, List.mem_cons] at h
    push_neg at h
    rw [extendDoc_cons, ih _ h.2, docGet_insertPair_ne _ _ _ (fun hk => h.1 hk.symm)]

theorem docGet_eq_none_of_not_mem_keys (d : Document) (k : String)
    (h : k ∉ d.map Prod.fst) : docGet d k = none := by
  induction d with
  | nil => rfl
  | cons p t ih =>
    simp only [List.map_cons, List.mem_cons] at h
    push_neg at h
    rw [docGet, if_neg (fun hk => h.1 hk.symm), ih h.2]

/-! ### Key-set lemmas for the serialized schemas -/

theorem requestKeys_subset (body : UpdateNoteSchema) :
    requestKeys body ⊆ ["title", "content", "category", "published"] := by
  rcases body with ⟨t, c, cat, pub⟩
  cases t <;> cases c <;> cases cat <;> cases pub <;>
    simp [requestKeys, serializeUpdate, List.subset_def]

theorem serializeCreate_keys_subset (body : CreateNoteSchema) :
    (serializeCreate body).map Prod.fst ⊆ ["title", "content", "category", "published"] := by
  rcases body with ⟨t, c, cat, pub⟩
  cases cat <;> cases pub <;> simp [serializeCreate, List.subset_def]

theorem requestKeys_absent_title (body : UpdateNoteSchema) (h : body.title = none) :
    "title" ∉ requestKeys body := by
  rcases body with ⟨t, c, cat, pub⟩
  cases t <;> cases c <;> cases cat <;> cases pub <;>
    simp_all [requestKeys, serializeUpdate]

theorem requestKeys_absent_content (body : UpdateNoteSchema) (h : body.content = none) :
    "content" ∉ requestKeys body := by
  rcases body with ⟨t, c, cat, pub⟩
  cases t <;> cases c <;> cases cat <;> cases pub <;>
    simp_all [requestKeys, serializeUpdate]

theorem requestKeys_absent_category (body : UpdateNoteSchema) (h : body.category = none) :
    "category" ∉ requestKeys body := by
  rcases body with ⟨t, c, cat, pub⟩
  cases t <;> cases c <;> cases cat <;> cases pub <;>
    simp_all [requestKeys, serializeUpdate]

theorem requestKeys_absent_published (body : UpdateNoteSchema) (h : body.published = none) :
    "published" ∉ requestKeys body := by
  rcases body with ⟨t, c, cat, pub⟩
  cases t <;> cases c <;> cases cat <;> cases pub <;>
    simp_all [requestKeys, serializeUpdate]

theorem createdAt_not_mem_requestKeys (body : UpdateNoteSchema) :
    "createdAt" ∉ requestKeys body :=
  fun h => by simpa using requestKeys_subset body h

theorem updatedAt_not_mem_requestKeys (body : UpdateNoteSchema) :
    "updatedAt" ∉ requestKeys body :=
  fun h => by simpa using requestKeys_subset body h

/-! ### Identifier codec lemmas -/

theorem toHexList_length (k n : Nat) : (toHexList k n).length = k := by
  induction k generalizing n with
  | zero => rfl
  | succ k ih => simp [toHexList, ih]

theorem ObjectId.toHex_length (o : ObjectId) : o.toHex.length = 24 := by
  show (String.mk (toHexList 24 o.val)).length = 24
  simp [String.length, toHexList_length]

theorem ObjectId.toHex_ne_empty (o : ObjectId) : o.toHex ≠ "" := by
  intro h
  have := congrArg String.length h
  rw [ObjectId.toHex_length] at this
  simp at this

theorem parseObjectId_eq_none (s : String)
    (h : ¬ (s.length = 24 ∧ s.data.all isHexCharB = true)) :
    parseObjectId s = none := by
  rw [parseObjectId, if_neg h]

/-! ### Store lemmas -/

theorem findDoc_append_of_not_found (st : Store) (fid : ObjectId) (d : Document)
    (h : findDoc st fid = none) : findDoc (st ++ [(fid, d)]) fid = some d := by
  induction st with
  | nil => simp [findDoc]
  | cons p t ih =>
    rw [findDoc] at h
    by_cases hp : p.1 = fid
    · rw [if_pos hp] at h; exact absurd h (by simp)
    · rw [if_neg hp] at h
      rw [List.cons_append, findDoc, if_neg hp, ih h]

theorem removeFirst_of_not_found (st : Store) (oid : ObjectId)
    (h : findDoc st oid = none) : removeFirst st oid = st := by
  induction st with
  | nil => rfl
  | cons p t ih =>
    rw [findDoc] at h
    by_cases hp : p.1 = oid
    · rw [if_pos hp] at h; exact absurd h (by simp)
    · rw [if_neg hp] at h
      rw [removeFirst, if_neg hp, ih h]

/-! ### The document built by create_note -/

theorem createMerged_get_title (now : Nat) (body : CreateNoteSchema) :
    docGet (createMerged now body) "title" = some (BVal.str body.title) := by
  rcases body with ⟨t, c, cat, pub⟩
  cases cat <;> cases pub <;>
    simp [createMerged, serializeCreate, extendDoc, insertPair, docGet]

theorem createMerged_get_content (now : Nat) (body : CreateNoteSchema) :
    docGet (createMerged now body) "content" = some (BVal.str body.content) := by
  rcases body with ⟨t, c, cat, pub⟩
  cases cat <;> cases pub <;>
    simp [createMerged, serializeCreate, extendDoc, insertPair, docGet]

theorem createMerged_get_createdAt (now : Nat) (body : CreateNoteSchema) :
    docGet (createMerged now body) "createdAt" = some (BVal.time now) := by
  rcases body with ⟨t, c, cat, pub⟩
  cases cat <;> cases pub <;>
    simp [createMerged, serializeCreate, extendDoc, insertPair, docGet]

theorem createMerged_get_updatedAt (now : Nat) (body : CreateNoteSchema) :
    docGet (createMerged now body) "updatedAt" = some (BVal.time now) := by
  rcases body with ⟨t, c, cat, pub⟩
  cases cat <;> cases pub <;>
    simp [createMerged, serializeCreate, extendDoc, insertPair, docGet]

theorem createMerged_get_category (now : Nat) (body : CreateNoteSchema) :
    docGet (createMerged now body) "category" = some (BVal.str (body.category.getD "")) := by
  rcases body with ⟨t, c, cat, pub⟩
  cases cat <;> cases pub <;>
    simp [createMerged, serializeCreate, extendDoc, insertPair, docGet]

theorem createMerged_get_published (now : Nat) (body : CreateNoteSchema) :
    docGet (createMerged now body) "published" = some (BVal.bool (body.published.getD false)) := by
  rcases body with ⟨t, c, cat, pub⟩
  cases cat <;> cases pub <;>
    simp [createMerged, serializeCreate, extendDoc, insertPair, docGet]

theorem deserNote_createMerged (fid : ObjectId) (now : Nat) (body : CreateNoteSchema) :
    deserNote fid (createMerged now body) =
      some { id := fid, title := body.title, content := body.content,
             category := some (body.category.getD ""),
             published := some (body.published.getD false),
             createdAt := now, updatedAt := now } := by
  simp [deserNote, getStr, getBoolV, getTimeV, createMerged_get_title,
    createMerged_get_content, createMerged_get_createdAt, createMerged_get_updatedAt,
    createMerged_get_category, createMerged_get_published]

/-! ### Cursor loop lemmas -/

theorem cursorLoop_eq_of_allDeser (l : List (ObjectId × Document))
    (h : allDeser l = true) : cursorLoop l = some (Except.ok (notesOf l)) := by
  induction l with
  | nil => rfl
  | cons p t ih =>
    rw [allDeser, List.all_cons, Bool.and_eq_true] at h
    obtain ⟨m, hm⟩ := Option.isSome_iff_exists.mp h.1
    rw [cursorLoop, hm]
    simp [docToNote, ih h.2, notesOf, hm]

theorem allDeser_window (st : Store) (h : allDeser st = true) (n m : Nat) :
    allDeser ((st.drop n).take m) = true := by
  rw [allDeser, List.all_eq_true] at h ⊢
  intro p hp
  exact h p (List.drop_subset n st (List.take_subset m _ hp))

/-! ### Claim C1 -/

/-- Claim C1: for every CreateRequest whose title is fresh (and with a
fresh store-assigned id), create succeeds, and the returned note has a
non-empty identifier, createdAt equal to updatedAt, and category equal
to the empty string and published equal to false when those fields were
omitted from the request (in general: their defaulted values). -/
theorem create_fresh_title_succeeds (st : Store) (body : CreateNoteSchema)
    (now : Nat) (fid : ObjectId)
    (hfresh : titleTaken st body.title = false)
    (hid : findDoc st fid = none) :
    createNote false none now fid st body =
      (some (Except.ok (some
        { status := "success",
          data := { note :=
            { id := fid.toHex, title := body.title, content := body.content,
              category := body.category.getD "", published := body.published.getD false,
              createdAt := now, updatedAt := now } } })),
       st ++ [(fid, createMerged now body)],
       [StoreOp.createIndex, StoreOp.insertOne (createMerged now body),
        StoreOp.findOne fid]) ∧
    fid.toHex ≠ "" := by
  refine ⟨?_, ObjectId.toHex_ne_empty fid⟩
  have hins : insertOne none st fid (createMerged now body) =
      Except.ok (st ++ [(fid, createMerged now body)]) := by
    simp [insertOne, createMerged_get_title, hfresh]
  have hfind : findOneNote (st ++ [(fid, createMerged now body)]) fid =
      Except.ok (some
        { id := fid, title := body.title, content := body.content,
          category := some (body.category.getD ""),
          published := some (body.published.getD false),
          createdAt := now, updatedAt := now }) := by
    simp [findOneNote, findDoc_append_of_not_found st fid _ hid, deserNote_createMerged]
  simp [createNote, hins, hfind, noteResponseOf]

/-- Witness for C1 at a concrete input. -/
theorem create_fresh_title_succeeds_witness :
    createNote false none 7 ⟨3⟩ [] exBody =
      (some (Except.ok (some
        { status := "success",
          data := { note :=
            { id := ObjectId.toHex ⟨3⟩, title := "t", content := "c",
              category := "", published := false,
              createdAt := 7, updatedAt := 7 } } })),
       [] ++ [(⟨3⟩, createMerged 7 exBody)],
       [StoreOp.createIndex, StoreOp.insertOne (createMerged 7 exBody),
        StoreOp.findOne ⟨3⟩]) ∧
    ObjectId.toHex ⟨3⟩ ≠ "" :=
  create_fresh_title_succeeds [] exBody 7 ⟨3⟩ rfl rfl

/-! ### Claim C4 -/

/-- Claim C4: the serialized update document contains only the fields
present in the request — any field not named in the request (createdAt
in particular) is entirely absent from the document, and applying the
merge-style update leaves that field of the stored document unchanged. -/
theorem update_doc_only_present_fields (body : UpdateNoteSchema) (d : Document)
    (k : String) (hk : k ∉ requestKeys body) :
    docGet (serializeUpdate body) k = none ∧
    docGet (extendDoc d (serializeUpdate body)) k = docGet d k ∧
    (body.title = none → "title" ∉ requestKeys body) ∧
    (body.content = none → "content" ∉ requestKeys body) ∧
    (body.category = none → "category" ∉ requestKeys body) ∧
    (body.published = none → "published" ∉ requestKeys body) ∧
    "createdAt" ∉ requestKeys body :=
  ⟨docGet_eq_none_of_not_mem_keys _ _ hk, docGet_extendDoc_not_mem _ _ _ hk,
    requestKeys_absent_title body, requestKeys_absent_content body,
    requestKeys_absent_category body, requestKeys_absent_published body,
    createdAt_not_mem_requestKeys body⟩

/-- Witness for C4 at a concrete input: an update carrying only a title
leaves a stored createdAt field untouched. -/
theorem update_doc_only_present_fields_witness :
    docGet (serializeUpdate ⟨some "X", none, none, none⟩) "createdAt" = none ∧
    docGet (extendDoc [("createdAt", BVal.time 3)]
      (serializeUpdate ⟨some "X", none, none, none⟩)) "createdAt" =
      docGet [("createdAt", BVal.time 3)] "createdAt" ∧
    ((⟨some "X", none, none, none⟩ : UpdateNoteSchema).title = none →
      "title" ∉ requestKeys ⟨some "X", none, none, none⟩) ∧
    ((⟨some "X", none, none, none⟩ : UpdateNoteSchema).content = none →
      "content" ∉ requestKeys ⟨some "X", none, none, none⟩) ∧
    ((⟨some "X", none, none, none⟩ : UpdateNoteSchema).category = none →
      "category" ∉ requestKeys ⟨some "X", none, none, none⟩) ∧
    ((⟨some "X", none, none, none⟩ : UpdateNoteSchema).published = none →
      "published" ∉ requestKeys ⟨some "X", none, none, none⟩) ∧
    "createdAt" ∉ requestKeys ⟨some "X", none, none, none⟩ :=
  update_doc_only_present_fields ⟨some "X", none, none, none⟩
    [("createdAt", BVal.time 3)] "createdAt" (by decide)

/-! ### Claim C5 -/

/-- Claim C5: an identifier string that is not a 24-character hex token
(wrong length, non-hex characters, the empty string) makes get, update
and delete fail with InvalidIDError carrying the offending raw string —
not with a query error. -/
theorem malformed_id_invalid_id_error (s : String) (st : Store)
    (body : UpdateNoteSchema)
    (h : ¬ (s.length = 24 ∧ s.data.all isHexCharB = true)) :
    getNote st s = (Except.error (Error.InvalidIDError s), st, []) ∧
    editNote st s body = (Except.error (Error.InvalidIDError s), st, []) ∧
    deleteNote st s = (Except.error (Error.InvalidIDError s), st, []) := by
  have hp := parseObjectId_eq_none s h
  exact ⟨by simp [getNote, hp], by simp [editNote, hp], by simp [deleteNote, hp]⟩

/-- Witness for C5 at the concrete malformed identifier "not-an-id". -/
theorem malformed_id_invalid_id_error_witness :
    getNote [] "not-an-id" =
      (Except.error (Error.InvalidIDError "not-an-id"), [], []) ∧
    editNote [] "not-an-id" emptyUpdate =
      (Except.error (Error.InvalidIDError "not-an-id"), [], []) ∧
    deleteNote [] "not-an-id" =
      (Except.error (Error.InvalidIDError "not-an-id"), [], []) :=
  malformed_id_invalid_id_error "not-an-id" [] emptyUpdate (by decide)

/-! ### Claim C10 -/

/-- Claim C10: identifier parsing happens before any store operation is
issued — get, update and delete with a malformed identifier issue no
store operation at all and leave the store unchanged. -/
theorem malformed_id_no_store_ops (s : String) (st : Store)
    (body : UpdateNoteSchema) (h : parseObjectId s = none) :
    (getNote st s).2 = (st, []) ∧
    (editNote st s body).2 = (st, []) ∧
    (deleteNote st s).2 = (st, []) :=
  ⟨by simp [getNote, h], by simp [editNote, h], by simp [deleteNote, h]⟩

/-- Witness for C10 at a concrete malformed identifier and a non-empty
store. -/
theorem malformed_id_no_store_ops_witness :
    (getNote exStore "nope").2 = (exStore, []) ∧
    (editNote exStore "nope" emptyUpdate).2 = (exStore, []) ∧
    (deleteNote exStore "nope").2 = (exStore, []) :=
  malformed_id_no_store_ops "nope" exStore emptyUpdate (by decide)

/-! ### Claim C6 -/

/-- Claim C6: when no document matches the identifier (for delete: zero
documents were removed), get, update and delete return the empty option
as a value — an outcome distinct from every error, never a returned or
thrown error. -/
theorem not_found_returned_as_value (s : String) (oid : ObjectId) (st : Store)
    (body : UpdateNoteSchema)
    (hp : parseObjectId s = some oid) (hf : findDoc st oid = none) :
    getNote st s = (Except.ok none, st, [StoreOp.findOne oid]) ∧
    editNote st s body =
      (Except.ok none, st, [StoreOp.findOneAndUpdate oid (serializeUpdate body)]) ∧
    deleteNote st s = (Except.ok none, st, [StoreOp.deleteOne oid]) := by
  refine ⟨?_, ?_, ?_⟩
  · simp [getNote, hp, findOneNote, hf]
  · simp [editNote, hp, hf]
  · simp [deleteNote, hp, hf, removeFirst_of_not_found st oid hf]

/-- Witness for C6 at a concrete valid-but-absent identifier on the
empty store. -/
theorem not_found_returned_as_value_witness :
    getNote [] "000000000000000000000000" =
      (Except.ok none, [], [StoreOp.findOne ⟨0⟩]) ∧
    editNote [] "000000000000000000000000" emptyUpdate =
      (Except.ok none, [], [StoreOp.findOneAndUpdate ⟨0⟩ (serializeUpdate emptyUpdate)]) ∧
    deleteNote [] "000000000000000000000000" =
      (Except.ok none, [], [StoreOp.deleteOne ⟨0⟩]) :=
  not_found_returned_as_value "000000000000000000000000" ⟨0⟩ [] emptyUpdate
    (by decide) rfl

/-! ### Claim C3 -/

/-- Claim C3 counterexample: edit_note forces no updatedAt into the
applied $set document.  For the empty update request the $set document
is empty, and on a store holding one note whose updatedAt is 10, the
update succeeds, stores the document unchanged, and both the stored and
the returned updatedAt remain 10 — not strictly greater than the prior
value as the claim requires. -/
theorem edit_empty_update_keeps_updatedAt_counterexample :
    serializeUpdate emptyUpdate = [] ∧
    docGet exDoc "updatedAt" = some (BVal.time 10) ∧
    editNote exStore exId emptyUpdate =
      (Except.ok (some
        { status := "success", data := { note :=
          { id := exId, title := "a", content := "b", category := "",
            published := false, createdAt := 10, updatedAt := 10 } } }),
       exStore, [StoreOp.findOneAndUpdate ⟨5⟩ []]) :=
  ⟨rfl, by decide, by decide⟩

/-- Claim C3, amended: the $set document edit_note applies consists of
exactly the present request fields — it never contains an updatedAt
entry — so the document stored by a matched update carries an updatedAt
equal to its prior value; no forced updatedAt = now is added. -/
theorem edit_set_doc_lacks_updatedAt (st : Store) (id : String)
    (body : UpdateNoteSchema) (oid : ObjectId) (d : Document)
    (hp : parseObjectId id = some oid) (hf : findDoc st oid = some d) :
    docGet (serializeUpdate body) "updatedAt" = none ∧
    docGet (extendDoc d (serializeUpdate body)) "updatedAt" = docGet d "updatedAt" ∧
    (editNote st id body).2.1 = updateAt st oid (extendDoc d (serializeUpdate body)) := by
  refine ⟨docGet_eq_none_of_not_mem_keys _ _ (updatedAt_not_mem_requestKeys body),
    docGet_extendDoc_not_mem _ _ _ (updatedAt_not_mem_requestKeys body), ?_⟩
  cases hdes : deserNote oid (extendDoc d (serializeUpdate body)) <;>
    simp [editNote, hp, hf, hdes]

/-- Witness for the amended C3 at a concrete input. -/
theorem edit_set_doc_lacks_updatedAt_witness :
    docGet (serializeUpdate emptyUpdate) "updatedAt" = none ∧
    docGet (extendDoc exDoc (serializeUpdate emptyUpdate)) "updatedAt" =
      docGet exDoc "updatedAt" ∧
    (editNote exStore exId emptyUpdate).2.1 =
      updateAt exStore ⟨5⟩ (extendDoc exDoc (serializeUpdate emptyUpdate)) :=
  edit_set_doc_lacks_updatedAt exStore exId emptyUpdate ⟨5⟩ exDoc
    (by decide) (by decide)

/-! ### Claim C2 -/

/-- Claim C2 counterexample: an insert failure that did NOT arise from
the uniqueness constraint (its structured constraint-violation signal is
false) but whose display message happens to contain the marker substring
is surfaced as MongoDuplicateError rather than MongoQueryError — the
code classifies by substring-matching the message, not by the store's
structured signal. -/
theorem create_spoofed_message_counterexample :
    spoofError.isDupKeyViolation = false ∧
    (createNote false (some spoofError) 0 ⟨0⟩ [] exBody).1 =
      some (Except.error (Error.MongoDuplicateError spoofError)) :=
  ⟨rfl, by decide⟩

/-- Claim C2, amended: create classifies insert failures by whether the
driver error's display message contains the substring
"E11000 duplicate key error collection": a genuine title-uniqueness
violation carries that message and surfaces as MongoDuplicateError;
every injected failure surfaces as classifyInsertError of it, which is
MongoQueryError exactly when the message lacks the marker and
MongoDuplicateError whenever the message contains it. -/
theorem create_dup_classified_by_message :
    (∀ (st : Store) (body : CreateNoteSchema) (now : Nat) (fid : ObjectId),
      titleTaken st body.title = true →
      (createNote false none now fid st body).1 =
        some (Except.error (Error.MongoDuplicateError
          ⟨true, dupKeyErrorMessage⟩))) ∧
    (∀ (e : MongoError) (st : Store) (body : CreateNoteSchema) (now : Nat)
      (fid : ObjectId),
      (createNote false (some e) now fid st body).1 =
        some (Except.error (classifyInsertError e))) ∧
    (∀ e : MongoError, strContains e.message dupKeyMarker = false →
      classifyInsertError e = Error.MongoQueryError e) ∧
    (∀ e : MongoError, strContains e.message dupKeyMarker = true →
      classifyInsertError e = Error.MongoDuplicateError e) := by
  refine ⟨?_, ?_, ?_, ?_⟩
  · intro st body now fid h
    have hins : insertOne none st fid (createMerged now body) =
        Except.error ⟨true, dupKeyErrorMessage⟩ := by
      simp [insertOne, createMerged_get_title, h]
    have hclass : classifyInsertError ⟨true, dupKeyErrorMessage⟩ =
        Error.MongoDuplicateError ⟨true, dupKeyErrorMessage⟩ := by decide
    simp [createNote, hins, hclass]
  · intro e st body now fid
    simp [createNote, insertOne]
  · intro e h
    simp [classifyInsertError, h]
  · intro e h
    simp [classifyInsertError, h]

/-- Witness for the amended C2: a colliding title surfaces as a
duplicate-key error, and a marker-free failure surfaces as a query
error. -/
theorem create_dup_classified_by_message_witness :
    (createNote false none 0 ⟨2⟩ exStoreTitleT exBody).1 =
      some (Except.error (Error.MongoDuplicateError
        ⟨true, dupKeyErrorMessage⟩)) ∧
    classifyInsertError ⟨false, "network timeout"⟩ =
      Error.MongoQueryError ⟨false, "network timeout"⟩ :=
  ⟨create_dup_classified_by_message.1 exStoreTitleT exBody 0 ⟨2⟩ (by decide),
   create_dup_classified_by_message.2.2.1 ⟨false, "network timeout"⟩ (by decide)⟩

/-! ### Claim C7 -/

/-- Claim C7 counterexample: at page = 0, limit = 10 the skip product
(page-1)*limit is negative, the u64 conversion fails and the unwrap
panics (the none outcome) — the call does not reject the input with any
error value, and errors.rs has no InvalidPagination kind at all. -/
theorem pagination_underflow_panics_counterexample :
    fetchNotes [] 10 0 = none ∧
    ¬ fetchRejectsWithError (fetchNotes [] 10 0) := by
  refine ⟨by decide, ?_⟩
  rintro ⟨e, h⟩
  rw [(by decide : fetchNotes [] 10 0 = none)] at h
  exact Option.noConfusion h

/-- Claim C7, amended: the pagination window is skip = (page-1)*limit
whenever that product is non-negative; when it is negative (any
non-positive page with a positive limit) the conversion to u64 fails and
fetch_notes panics instead of rejecting the input with an error. -/
theorem pagination_skip_or_panic (st : Store) (limit page : Int) :
    (0 ≤ (page - 1) * limit →
      fetchNotesSkip limit page = some ((page - 1) * limit).toNat) ∧
    ((page - 1) * limit < 0 → fetchNotes st limit page = none) := by
  constructor
  · intro h
    rw [fetchNotesSkip, if_pos h]
  · intro h
    have hskip : fetchNotesSkip limit page = none := by
      rw [fetchNotesSkip, if_neg (not_le.mpr h)]
    simp [fetchNotes, hskip]

/-- Witness for the amended C7: a valid window at page 3, limit 10, and
the panic at page 0, limit 10. -/
theorem pagination_skip_or_panic_witness :
    fetchNotesSkip 10 3 = some 20 ∧ fetchNotes [] 10 0 = none :=
  ⟨(pagination_skip_or_panic [] 10 3).1 (by decide),
   (pagination_skip_or_panic [] 10 0).2 (by decide)⟩

/-! ### Claim C8 -/

/-- Claim C8 counterexample: list does not return a success response for
every page and limit — at page = -1, limit = 5 the skip computation
panics (the none outcome) instead of producing any response. -/
theorem fetch_negative_page_counterexample :
    fetchNotes [] 5 (-1) = none ∧
    ¬ fetchReturnsResponse (fetchNotes [] 5 (-1)) := by
  refine ⟨by decide, ?_⟩
  rintro ⟨resp, h⟩
  rw [(by decide : fetchNotes [] 5 (-1) = none)] at h
  exact Option.noConfusion h

/-- Claim C8, amended: whenever the skip product (page-1)*limit is
non-negative and the stored documents decode, list returns a response
with status "success" whose results field equals the number of notes in
the returned sequence; in particular an empty window yields the empty
list with results = 0 rather than an error. -/
theorem fetch_success_shape (st : Store) (limit page : Int)
    (hs : 0 ≤ (page - 1) * limit) (hwf : allDeser st = true) :
    fetchNotes st limit page =
      some (Except.ok
        { status := "success",
          results := (notesOf ((st.drop ((page - 1) * limit).toNat).take limit.toNat)).length,
          notes := notesOf ((st.drop ((page - 1) * limit).toNat).take limit.toNat) }) := by
  have hskip : fetchNotesSkip limit page = some ((page - 1) * limit).toNat := by
    rw [fetchNotesSkip, if_pos hs]
  have hcl := cursorLoop_eq_of_allDeser _
    (allDeser_window st hwf ((page - 1) * limit).toNat limit.toNat)
  simp [fetchNotes, hskip, hcl]

/-- Witness for the amended C8: the empty result set on the empty store
returns success with results = 0 and no notes. -/
theorem fetch_success_shape_witness :
    fetchNotes [] 10 1 =
      some (Except.ok { status := "success", results := 0, notes := [] }) :=
  fetch_success_shape [] 10 1 (by decide) rfl

/-! ### Claim C9 -/

/-- Claim C9 counterexample: when index creation fails, create aborts by
panicking (the none outcome of expect): the insert is indeed prevented —
only the create-index operation was issued and the store is unchanged —
but nothing is surfaced to the caller as an internal error value. -/
theorem index_failure_panics_counterexample :
    createNote true none 0 ⟨0⟩ [] exBody = (none, [], [StoreOp.createIndex]) ∧
    ¬ createReturnsError (createNote true none 0 ⟨0⟩ [] exBody).1 := by
  refine ⟨by decide, ?_⟩
  rintro ⟨e, h⟩
  rw [show (createNote true none 0 ⟨0⟩ [] exBody).1 = none from by decide] at h
  exact Option.noConfusion h

/-- Claim C9, amended: every create issues the unique-index creation as
its first store operation, before any insert; a failing index creation
prevents the insert entirely — no insert is issued and the store is
unchanged — but it aborts the call by panicking rather than surfacing a
typed internal error to the caller. -/
theorem index_before_insert (ib : Bool) (ie : Option MongoError) (now : Nat)
    (fid : ObjectId) (st : Store) (body : CreateNoteSchema) :
    (createNote ib ie now fid st body).2.2.head? = some StoreOp.createIndex ∧
    (ib = true →
      createNote ib ie now fid st body = (none, st, [StoreOp.createIndex])) := by
  constructor
  · cases ib
    · rcases hins : insertOne ie st fid (createMerged now body) with e | st'
      · simp [createNote, hins]
      · rcases hfind : findOneNote st' fid with e | m
        · simp [createNote, hins, hfind]
        · cases m <;> simp [createNote, hins, hfind]
    · simp [createNote]
  · intro h
    subst h
    simp [createNote]

/-- Witness for the amended C9 at a concrete failing index creation. -/
theorem index_before_insert_witness :
    createNote true none 0 ⟨0⟩ [] exBody = (none, [], [StoreOp.createIndex]) :=
  (index_before_insert true none 0 ⟨0⟩ [] exBody).2 rfl

end RustMongoCrud
